import Mathlib

/-!
Verification of the megalodon client library against its specification.

Part 1 embeds the REST wrapper class `Mastodon` (src/unnamed/part_000):
each public wrapper method is embedded as a pure function from its
arguments to the single HTTP `Request` it issues on the underlying
`APIClient`.  JavaScript truthiness tests (`if (x)`) and null tests
(`x !== null`) that guard `Object.assign` calls are embedded explicitly.

Part 2 models the realtime streaming core, which is described by the
specification but whose code is not part of the given sources; those
definitions are each marked `Modelled from the spec:`.
-/

namespace Megalodon

/-- HTTP method of an APIClient call (`get` / `post` / `put` / `patch` / `del`). -/
inductive Verb where
  | get | post | put | patch | del
  deriving DecidableEq, Repr

/-- A JSON-ish value sent as one request parameter. -/
inductive Value where
  | str : String → Value
  | num : Int → Value
  | bool : Bool → Value
  | strList : List String → Value
  | numList : List Int → Value
  | obj : List (String × Value) → Value
  | pairs : List (String × String) → Value

/-- One HTTP request as built by a wrapper method: the verb, the path and
the request-parameter object (a key/value list, keys in insertion order). -/
structure Request where
  verb : Verb
  path : String
  params : List (String × Value)

/-- The keys of the request-parameter object, in insertion order. -/
def keysOf (r : Request) : List String :=
  r.params.map Prod.fst

/-- JS truthiness of an optional string (`if (s)`): null and `""` are falsy. -/
def truthyS : Option String → Bool
  | none => false
  | some s => s != ""

/-- JS truthiness of an optional number (`if (n)`): null and `0` are falsy. -/
def truthyN : Option Int → Bool
  | none => false
  | some n => n != 0

/-- JS truthiness of an optional boolean (`if (b)`): null and `false` are falsy. -/
def truthyB : Option Bool → Bool
  | none => false
  | some b => b

/-- Embedding of `params = Object.assign(params, kv)` guarded by a condition: appends the
single key/value pair when the condition holds (all wrappers use pairwise
distinct keys, so append models assign exactly). -/
def assignIf (c : Bool) (k : String) (v : Value) (p : List (String × Value)) :
    List (String × Value) :=
  if c then p ++ [(k, v)] else p

namespace Mastodon

/-- Wrapper `getBookmarks(limit?, max_id?, since_id?, min_id?)` — GET /api/v1/bookmarks. -/
def getBookmarks (limit : Option Int) (max_id since_id min_id : Option String) :
    Request :=
  let params : List (String × Value) := []
  let params := assignIf (truthyS max_id) "max_id" (.str (max_id.getD "")) params
  let params := assignIf (truthyS since_id) "since_id" (.str (since_id.getD "")) params
  let params := assignIf (truthyN limit) "limit" (.num (limit.getD 0)) params
  let params := assignIf (truthyS min_id) "min_id" (.str (min_id.getD "")) params
  ⟨.get, "/api/v1/bookmarks", params⟩

/-- Wrapper `getAccountFollowers(id, limit?, max_id?, since_id?)` — GET /api/v1/accounts/:id/followers. -/
def getAccountFollowers (id : String) (limit : Option Int)
    (max_id since_id : Option String) : Request :=
  let params : List (String × Value) := []
  let params := assignIf (truthyS max_id) "max_id" (.str (max_id.getD "")) params
  let params := assignIf (truthyS since_id) "since_id" (.str (since_id.getD "")) params
  let params := assignIf (truthyN limit) "limit" (.num (limit.getD 0)) params
  ⟨.get, "/api/v1/accounts/" ++ id ++ "/followers", params⟩

/-- Wrapper `updateFilter(id, phrase, context, irreversible?, whole_word?, expires_in?)` —
documented as PUT /api/v1/filters/:id but issued via `client.post`. -/
def updateFilter (id phrase : String) (context : List String)
    (irreversible whole_word : Option Bool) (expires_in : Option String) : Request :=
  let params : List (String × Value) := [("phrase", .str phrase), ("context", .strList context)]
  let params := assignIf (truthyB irreversible) "irreversible" (.bool (irreversible.getD false)) params
  let params := assignIf (truthyB whole_word) "whole_word" (.bool (whole_word.getD false)) params
  let params := assignIf (truthyS expires_in) "expires_in" (.str (expires_in.getD "")) params
  ⟨.post, "/api/v1/filters/" ++ id, params⟩

/-- The `source` argument of `updateCredentials` (passed through verbatim). -/
structure Source where
  privacy : Option String
  sensitive : Option Bool
  language : Option String

/-- Wrapper `updateCredentials(discoverable, bot, display_name, note, avatar, header,
locked, source, fields_attributes)` — PATCH /api/v1/accounts/update_credentials.
`bot` and `locked` are guarded by `!== null`; the rest by JS truthiness
(`source` is an object, truthy exactly when non-null; `fields_attributes`
is a non-nullable array, always truthy). -/
def updateCredentials (discoverable : Option String) (bot : Option Bool)
    (display_name note avatar header : Option String) (locked : Option Bool)
    (source : Option Source) (fields_attributes : List (String × String)) : Request :=
  let params : List (String × Value) := []
  let params := assignIf (truthyS discoverable) "discoverable" (.str (discoverable.getD "")) params
  let params := assignIf bot.isSome "bot" (.bool (bot.getD false)) params
  let params := assignIf (truthyS display_name) "display_name" (.str (display_name.getD "")) params
  let params := assignIf (truthyS note) "note" (.str (note.getD "")) params
  let params := assignIf (truthyS avatar) "avatar" (.str (avatar.getD "")) params
  let params := assignIf (truthyS header) "header" (.str (header.getD "")) params
  let params := assignIf locked.isSome "locked" (.bool (locked.getD false)) params
  let params := assignIf source.isSome "source"
    (.obj (match source with
      | some s =>
        let sp : List (String × Value) := []
        let sp := match s.privacy with | some v => sp ++ [("privacy", .str v)] | none => sp
        let sp := match s.sensitive with | some v => sp ++ [("sensitive", .bool v)] | none => sp
        let sp := match s.language with | some v => sp ++ [("language", .str v)] | none => sp
        sp
      | none => [])) params
  let params := assignIf true "fields_attributes" (.pairs fields_attributes) params
  ⟨.patch, "/api/v1/accounts/update_credentials", params⟩

/-- Wrapper `registerAccount(username, email, password, agreement, locale, reason)` —
POST /api/v1/accounts. -/
def registerAccount (username email password : String) (agreement : Bool)
    (locale : String) (reason : Option String) : Request :=
  let params : List (String × Value) :=
    [("username", .str username), ("email", .str email), ("password", .str password),
     ("agreement", .bool agreement), ("locale", .str locale)]
  let params := assignIf (truthyS reason) "reason" (.str (reason.getD "")) params
  ⟨.post, "/api/v1/accounts", params⟩

/-- Wrapper `getAccountFollowing(id, limit?, max_id?, since_id?)` — GET /api/v1/accounts/:id/following. -/
def getAccountFollowing (id : String) (limit : Option Int)
    (max_id since_id : Option String) : Request :=
  let params : List (String × Value) := []
  let params := assignIf (truthyS max_id) "max_id" (.str (max_id.getD "")) params
  let params := assignIf (truthyS since_id) "since_id" (.str (since_id.getD "")) params
  let params := assignIf (truthyN limit) "limit" (.num (limit.getD 0)) params
  ⟨.get, "/api/v1/accounts/" ++ id ++ "/following", params⟩

/-- Wrapper `searchAccount(q, limit?, max_id?, since_id?)` — GET /api/v1/accounts/search. -/
def searchAccount (q : String) (limit : Option Int)
    (max_id since_id : Option String) : Request :=
  let params : List (String × Value) := [("q", .str q)]
  let params := assignIf (truthyS max_id) "max_id" (.str (max_id.getD "")) params
  let params := assignIf (truthyS since_id) "since_id" (.str (since_id.getD "")) params
  let params := assignIf (truthyN limit) "limit" (.num (limit.getD 0)) params
  ⟨.get, "/api/v1/accounts/search", params⟩

/-- Wrapper `getFavourites(limit?, min_id?, max_id?)` — GET /api/v1/favourites. -/
def getFavourites (limit : Option Int) (min_id max_id : Option String) : Request :=
  let params : List (String × Value) := []
  let params := assignIf (truthyS min_id) "min_id" (.str (min_id.getD "")) params
  let params := assignIf (truthyS max_id) "max_id" (.str (max_id.getD "")) params
  let params := assignIf (truthyN limit) "limit" (.num (limit.getD 0)) params
  ⟨.get, "/api/v1/favourites", params⟩

/-- Wrapper `getMutes(limit?, max_id?, min_id?)` — GET /api/v1/mutes. -/
def getMutes (limit : Option Int) (max_id min_id : Option String) : Request :=
  let params : List (String × Value) := []
  let params := assignIf (truthyS min_id) "min_id" (.str (min_id.getD "")) params
  let params := assignIf (truthyS max_id) "max_id" (.str (max_id.getD "")) params
  let params := assignIf (truthyN limit) "limit" (.num (limit.getD 0)) params
  ⟨.get, "/api/v1/mutes", params⟩

/-- Wrapper `getBlocks(limit?, max_id?, min_id?)` — GET /api/v1/blocks. -/
def getBlocks (limit : Option Int) (max_id min_id : Option String) : Request :=
  let params : List (String × Value) := []
  let params := assignIf (truthyS min_id) "min_id" (.str (min_id.getD "")) params
  let params := assignIf (truthyS max_id) "max_id" (.str (max_id.getD "")) params
  let params := assignIf (truthyN limit) "limit" (.num (limit.getD 0)) params
  ⟨.get, "/api/v1/blocks", params⟩

/-- Wrapper `getDomainBlocks(limit?, max_id?, min_id?)` — GET /api/v1/domain_blocks. -/
def getDomainBlocks (limit : Option Int) (max_id min_id : Option String) : Request :=
  let params : List (String × Value) := []
  let params := assignIf (truthyS min_id) "min_id" (.str (min_id.getD "")) params
  let params := assignIf (truthyS max_id) "max_id" (.str (max_id.getD "")) params
  let params := assignIf (truthyN limit) "limit" (.num (limit.getD 0)) params
  ⟨.get, "/api/v1/domain_blocks", params⟩

/-- Wrapper `createFilter(phrase, context, irreversible?, whole_word?, expires_in?)` —
POST /api/v1/filters. -/
def createFilter (phrase : String) (context : List String)
    (irreversible whole_word : Option Bool) (expires_in : Option String) : Request :=
  let params : List (String × Value) := [("phrase", .str phrase), ("context", .strList context)]
  let params := assignIf (truthyB irreversible) "irreversible" (.bool (irreversible.getD false)) params
  let params := assignIf (truthyB whole_word) "whole_word" (.bool (whole_word.getD false)) params
  let params := assignIf (truthyS expires_in) "expires_in" (.str (expires_in.getD "")) params
  ⟨.post, "/api/v1/filters", params⟩

/-- Wrapper `report(account_id, status_ids, comment, forward)` — POST /api/v1/reports.
`status_ids` is an array, truthy exactly when non-null. -/
def report (account_id : String) (status_ids : Option (List String))
    (comment : Option String) (forward : Option Bool) : Request :=
  let params : List (String × Value) := [("account_id", .str account_id)]
  let params := assignIf status_ids.isSome "status_ids" (.strList (status_ids.getD [])) params
  let params := assignIf (truthyS comment) "comment" (.str (comment.getD "")) params
  let params := assignIf (truthyB forward) "forward" (.bool (forward.getD false)) params
  ⟨.post, "/api/v1/reports", params⟩

/-- Wrapper `getFollowRequests(limit?)` — GET /api/v1/follow_requests; the whole call
is duplicated on the truthiness of `limit`. -/
def getFollowRequests (limit : Option Int) : Request :=
  if truthyN limit then
    ⟨.get, "/api/v1/follow_requests", [("limit", .num (limit.getD 0))]⟩
  else
    ⟨.get, "/api/v1/follow_requests", []⟩

/-- Wrapper `getEndorsements(limit?, max_id?, since_id?)` — GET /api/v1/endorsements. -/
def getEndorsements (limit : Option Int) (max_id since_id : Option String) : Request :=
  let params : List (String × Value) := []
  let params := assignIf (truthyN limit) "limit" (.num (limit.getD 0)) params
  let params := assignIf (truthyS max_id) "max_id" (.str (max_id.getD "")) params
  let params := assignIf (truthyS since_id) "since_id" (.str (since_id.getD "")) params
  ⟨.get, "/api/v1/endorsements", params⟩

/-- Wrapper `getSuggestions(limit?)` — GET /api/v1/suggestions; the whole call is
duplicated on the truthiness of `limit`. -/
def getSuggestions (limit : Option Int) : Request :=
  if truthyN limit then
    ⟨.get, "/api/v1/suggestions", [("limit", .num (limit.getD 0))]⟩
  else
    ⟨.get, "/api/v1/suggestions", []⟩

/-- The `poll` argument of `postStatus`. -/
structure PollIn where
  options : List String
  expires_in : Int
  multiple : Option Bool
  hide_totals : Option Bool

/-- The nested `pollParam` object built inside `postStatus`. -/
def pollObj (p : PollIn) : List (String × Value) :=
  let pollParam : List (String × Value) :=
    [("options", .strList p.options), ("expires_in", .num p.expires_in)]
  let pollParam := assignIf (truthyB p.multiple) "multiple" (.bool (p.multiple.getD false)) pollParam
  let pollParam := assignIf (truthyB p.hide_totals) "hide_totals" (.bool (p.hide_totals.getD false)) pollParam
  pollParam

/-- Wrapper `postStatus(status, media_ids = [], poll?, in_reply_to_id?, sensitive?,
spoiler_text?, visibility?, scheduled_at?, language?)` — POST /api/v1/statuses.
`media_ids` is guarded by `media_ids.length > 0`; `poll` is an object, truthy
exactly when non-null. -/
def postStatus (status : String) (media_ids : List String) (poll : Option PollIn)
    (in_reply_to_id : Option String) (sensitive : Option Bool)
    (spoiler_text visibility scheduled_at language : Option String) : Request :=
  let params : List (String × Value) := [("status", .str status)]
  let params := assignIf (decide (0 < media_ids.length)) "media_ids" (.strList media_ids) params
  let params := assignIf poll.isSome "poll" (.obj (pollObj (poll.getD ⟨[], 0, none, none⟩))) params
  let params := assignIf (truthyS in_reply_to_id) "in_reply_to_id" (.str (in_reply_to_id.getD "")) params
  let params := assignIf (truthyB sensitive) "sensitive" (.bool (sensitive.getD false)) params
  let params := assignIf (truthyS spoiler_text) "spoiler_text" (.str (spoiler_text.getD "")) params
  let params := assignIf (truthyS visibility) "visibility" (.str (visibility.getD "")) params
  let params := assignIf (truthyS scheduled_at) "scheduled_at" (.str (scheduled_at.getD "")) params
  let params := assignIf (truthyS language) "language" (.str (language.getD "")) params
  ⟨.post, "/api/v1/statuses", params⟩

/-- Wrapper `uploadMedia(file, description?, focus?)` — POST /api/v1/media.
The opaque `file` argument is modelled as an arbitrary `Value`. -/
def uploadMedia (file : Value) (description focus : Option String) : Request :=
  let params : List (String × Value) := [("file", file)]
  let params := assignIf (truthyS description) "description" (.str (description.getD "")) params
  let params := assignIf (truthyS focus) "focus" (.str (focus.getD "")) params
  ⟨.post, "/api/v1/media", params⟩

/-- Wrapper `updateMedia(id, file?, description?, focus?)` — PUT /api/v1/media/:id.
The opaque optional `file` is modelled as an `Option Value`, truthy when present. -/
def updateMedia (id : String) (file : Option Value) (description focus : Option String) :
    Request :=
  let params : List (String × Value) := []
  let params := assignIf file.isSome "file" (file.getD (.str "")) params
  let params := assignIf (truthyS description) "description" (.str (description.getD "")) params
  let params := assignIf (truthyS focus) "focus" (.str (focus.getD "")) params
  ⟨.put, "/api/v1/media/" ++ id, params⟩

/-- Wrapper `getScheduledStatuses(limit?, max_id?, since_id?, min_id?)` — GET /api/v1/scheduled_statuses. -/
def getScheduledStatuses (limit : Option Int) (max_id since_id min_id : Option String) :
    Request :=
  let params : List (String × Value) := []
  let params := assignIf (truthyN limit) "limit" (.num (limit.getD 0)) params
  let params := assignIf (truthyS max_id) "max_id" (.str (max_id.getD "")) params
  let params := assignIf (truthyS since_id) "since_id" (.str (since_id.getD "")) params
  let params := assignIf (truthyS min_id) "min_id" (.str (min_id.getD "")) params
  ⟨.get, "/api/v1/scheduled_statuses", params⟩

/-- Wrapper `scheduleStatus(id, scheduled_at?)` — PUT /api/v1/scheduled_statuses/:id. -/
def scheduleStatus (id : String) (scheduled_at : Option String) : Request :=
  let params : List (String × Value) := []
  let params := assignIf (truthyS scheduled_at) "scheduled_at" (.str (scheduled_at.getD "")) params
  ⟨.put, "/api/v1/scheduled_statuses/" ++ id, params⟩

/-- Static `revokeToken(client_id, client_secret, token, ...)` — POST /oauth/revoke. -/
def revokeToken (client_id client_secret token : String) : Request :=
  ⟨.post, "/oauth/revoke",
    [("client_id", .str client_id), ("client_secret", .str client_secret),
     ("token", .str token)]⟩

/-- Wrapper `verifyAppCredentails()` — GET /api/v1/apps/verify_credentials. -/
def verifyAppCredentails : Request :=
  ⟨.get, "/api/v1/apps/verify_credentials", []⟩

/-- Wrapper `verifyAccountCredentials()` — GET /api/v1/accounts/verify_credentials. -/
def verifyAccountCredentials : Request :=
  ⟨.get, "/api/v1/accounts/verify_credentials", []⟩

/-- Wrapper `getAccount(id)` — GET /api/v1/accounts/:id. -/
def getAccount (id : String) : Request :=
  ⟨.get, "/api/v1/accounts/" ++ id, []⟩

/-- Wrapper `getAccountStatuses(id)` — GET /api/v1/accounts/:id/statuses. -/
def getAccountStatuses (id : String) : Request :=
  ⟨.get, "/api/v1/accounts/" ++ id ++ "/statuses", []⟩

/-- Wrapper `getAccountLists(id)` — GET /api/v1/accounts/:id/lists. -/
def getAccountLists (id : String) : Request :=
  ⟨.get, "/api/v1/accounts/" ++ id ++ "/lists", []⟩

/-- Wrapper `getIdentifyProof(id)` — GET /api/v1/accounts/:id/identity_proofs. -/
def getIdentifyProof (id : String) : Request :=
  ⟨.get, "/api/v1/accounts/" ++ id ++ "/identity_proofs", []⟩

/-- Wrapper `followAccount(id, reblog = true)` — POST /api/v1/accounts/:id/follow. -/
def followAccount (id : String) (reblog : Bool) : Request :=
  ⟨.post, "/api/v1/accounts/" ++ id ++ "/follow", [("reblog", .bool reblog)]⟩

/-- Wrapper `unfollowAccount(id)` — POST /api/v1/accounts/:id/unfollow. -/
def unfollowAccount (id : String) : Request :=
  ⟨.post, "/api/v1/accounts/" ++ id ++ "/unfollow", []⟩

/-- Wrapper `blockAccount(id)` — POST /api/v1/accounts/:id/block. -/
def blockAccount (id : String) : Request :=
  ⟨.post, "/api/v1/accounts/" ++ id ++ "/block", []⟩

/-- Wrapper `unblockAccount(id)` — POST /api/v1/accounts/:id/unblock. -/
def unblockAccount (id : String) : Request :=
  ⟨.post, "/api/v1/accounts/" ++ id ++ "/unblock", []⟩

/-- Wrapper `muteAccount(id, notifications = true)` — POST /api/v1/accounts/:id/mute. -/
def muteAccount (id : String) (notifications : Bool) : Request :=
  ⟨.post, "/api/v1/accounts/" ++ id ++ "/mute", [("notifications", .bool notifications)]⟩

/-- Wrapper `unmuteAccount(id)` — POST /api/v1/accounts/:id/unmute. -/
def unmuteAccount (id : String) : Request :=
  ⟨.post, "/api/v1/accounts/" ++ id ++ "/unmute", []⟩

/-- Wrapper `pinAccount(id)` — POST /api/v1/accounts/:id/pin. -/
def pinAccount (id : String) : Request :=
  ⟨.post, "/api/v1/accounts/" ++ id ++ "/pin", []⟩

/-- Wrapper `unpinAccount(id)` — POST /api/v1/accounts/:id/unpin. -/
def unpinAccount (id : String) : Request :=
  ⟨.post, "/api/v1/accounts/" ++ id ++ "/unpin", []⟩

/-- Wrapper `getRelationship()` — GET /api/v1/accounts/relationships. -/
def getRelationship : Request :=
  ⟨.get, "/api/v1/accounts/relationships", []⟩

/-- Wrapper `blockDomain(domain)` — POST /api/v1/domain_blocks. -/
def blockDomain (domain : String) : Request :=
  ⟨.post, "/api/v1/domain_blocks", [("domain", .str domain)]⟩

/-- Wrapper `unblockDomain(domain)` — DELETE /api/v1/domain_blocks. -/
def unblockDomain (domain : String) : Request :=
  ⟨.del, "/api/v1/domain_blocks", [("domain", .str domain)]⟩

/-- Wrapper `getFilters()` — GET /api/v1/filters. -/
def getFilters : Request :=
  ⟨.get, "/api/v1/filters", []⟩

/-- Wrapper `getFilter(id)` — GET /api/v1/filters/:id. -/
def getFilter (id : String) : Request :=
  ⟨.get, "/api/v1/filters/" ++ id, []⟩

/-- Wrapper `deleteFilter(id)` — DELETE /api/v1/filters/:id. -/
def deleteFilter (id : String) : Request :=
  ⟨.del, "/api/v1/filters/" ++ id, []⟩

/-- Wrapper `acceptFollowRequest(id)` — POST /api/v1/follow_requests/:id/authorize. -/
def acceptFollowRequest (id : String) : Request :=
  ⟨.post, "/api/v1/follow_requests/" ++ id ++ "/authorize", []⟩

/-- Wrapper `rejectFollowRequest(id)` — POST /api/v1/follow_requests/:id/reject. -/
def rejectFollowRequest (id : String) : Request :=
  ⟨.post, "/api/v1/follow_requests/" ++ id ++ "/reject", []⟩

/-- Wrapper `getFeaturedTags()` — GET /api/v1/featured_tags. -/
def getFeaturedTags : Request :=
  ⟨.get, "/api/v1/featured_tags", []⟩

/-- Wrapper `createFeaturedTag(name)` — POST /api/v1/featured_tags. -/
def createFeaturedTag (name : String) : Request :=
  ⟨.post, "/api/v1/featured_tags", [("name", .str name)]⟩

/-- Wrapper `deleteFeaturedTag(id)` — DELETE /api/v1/featured_tags/:id. -/
def deleteFeaturedTag (id : String) : Request :=
  ⟨.del, "/api/v1/featured_tags/" ++ id, []⟩

/-- Wrapper `getSuggestedTags()` — GET /api/v1/featured_tags/suggestions. -/
def getSuggestedTags : Request :=
  ⟨.get, "/api/v1/featured_tags/suggestions", []⟩

/-- Wrapper `getPreferences()` — GET /api/v1/preferences. -/
def getPreferences : Request :=
  ⟨.get, "/api/v1/preferences", []⟩

/-- Wrapper `getStatus(id)` — GET /api/v1/statuses/:id. -/
def getStatus (id : String) : Request :=
  ⟨.get, "/api/v1/statuses/" ++ id, []⟩

/-- Wrapper `deleteStatus(id)` — DELETE /api/v1/statuses/:id. -/
def deleteStatus (id : String) : Request :=
  ⟨.del, "/api/v1/statuses/" ++ id, []⟩

/-- Wrapper `getStatusContext(id)` — GET /api/v1/statuses/:id/context. -/
def getStatusContext (id : String) : Request :=
  ⟨.get, "/api/v1/statuses/" ++ id ++ "/context", []⟩

/-- Wrapper `getStatusRebloggedBy(id)` — GET /api/v1/statuses/:id/reblogged_by. -/
def getStatusRebloggedBy (id : String) : Request :=
  ⟨.get, "/api/v1/statuses/" ++ id ++ "/reblogged_by", []⟩

/-- Wrapper `getStatusFavouritedBy(id)` — GET /api/v1/statuses/:id/favourited_by. -/
def getStatusFavouritedBy (id : String) : Request :=
  ⟨.get, "/api/v1/statuses/" ++ id ++ "/favourited_by", []⟩

/-- Wrapper `favouriteStatus(id)` — POST /api/v1/statuses/:id/favourite. -/
def favouriteStatus (id : String) : Request :=
  ⟨.post, "/api/v1/statuses/" ++ id ++ "/favourite", []⟩

/-- Wrapper `unfavouriteStatus(id)` — POST /api/v1/statuses/:id/unfavourite. -/
def unfavouriteStatus (id : String) : Request :=
  ⟨.post, "/api/v1/statuses/" ++ id ++ "/unfavourite", []⟩

/-- Wrapper `reblogStatus(id)` — POST /api/v1/statuses/:id/reblog. -/
def reblogStatus (id : String) : Request :=
  ⟨.post, "/api/v1/statuses/" ++ id ++ "/reblog", []⟩

/-- Wrapper `unreblogStatus(id)` — POST /api/v1/statuses/:id/unreblog. -/
def unreblogStatus (id : String) : Request :=
  ⟨.post, "/api/v1/statuses/" ++ id ++ "/unreblog", []⟩

/-- Wrapper `bookmarkStatus(id)` — POST /api/v1/statuses/:id/bookmark. -/
def bookmarkStatus (id : String) : Request :=
  ⟨.post, "/api/v1/statuses/" ++ id ++ "/bookmark", []⟩

/-- Wrapper `unbookmarkStatus(id)` — POST /api/v1/statuses/:id/unbookmark. -/
def unbookmarkStatus (id : String) : Request :=
  ⟨.post, "/api/v1/statuses/" ++ id ++ "/unbookmark", []⟩

/-- Wrapper `muteStatus(id)` — POST /api/v1/statuses/:id/mute. -/
def muteStatus (id : String) : Request :=
  ⟨.post, "/api/v1/statuses/" ++ id ++ "/mute", []⟩

/-- Wrapper `unmuteStatus(id)` — POST /api/v1/statuses/:id/unmute. -/
def unmuteStatus (id : String) : Request :=
  ⟨.post, "/api/v1/statuses/" ++ id ++ "/unmute", []⟩

/-- Wrapper `pinStatus(id)` — POST /api/v1/statuses/:id/pin. -/
def pinStatus (id : String) : Request :=
  ⟨.post, "/api/v1/statuses/" ++ id ++ "/pin", []⟩

/-- Wrapper `unpinStatus(id)` — POST /api/v1/statuses/:id/unpin. -/
def unpinStatus (id : String) : Request :=
  ⟨.post, "/api/v1/statuses/" ++ id ++ "/unpin", []⟩

/-- Wrapper `getPoll(id)` — GET /api/v1/polls/:id. -/
def getPoll (id : String) : Request :=
  ⟨.get, "/api/v1/polls/" ++ id, []⟩

/-- Wrapper `votePoll(id, choices)` — POST /api/v1/polls/:id/votes. -/
def votePoll (id : String) (choices : List Int) : Request :=
  ⟨.post, "/api/v1/polls/" ++ id ++ "/votes", [("choices", .numList choices)]⟩

/-- Wrapper `getScheduledStatus(id)` — GET /api/v1/scheduled_statuses/:id. -/
def getScheduledStatus (id : String) : Request :=
  ⟨.get, "/api/v1/scheduled_statuses/" ++ id, []⟩

/-- Wrapper `cancelScheduledStatus(id)` — DELETE /api/v1/scheduled_statuses/:id. -/
def cancelScheduledStatus (id : String) : Request :=
  ⟨.del, "/api/v1/scheduled_statuses/" ++ id, []⟩

end Mastodon

/-!
Part 2 — the realtime streaming core.  The streaming subsystem is described
by the specification (§2–§7) but its code is not among the given source
files; every definition below is modelled from the spec's words and is
marked as such.
-/

/-- Modelled from the spec: the canonical event `type` tags (§3); the
streaming subsystem's code is not among the given sources. -/
inductive CType where
  | update
  | notification
  | delete
  | status_update
  | conversation
  | announcement
  | announcement_reaction
  | announcement_delete
  | filters_changed
  | error
  deriving DecidableEq, Repr

/-- Modelled from the spec: a Canonical Event (§3) — the Channel it belongs
to (abstracted to an identifier), its `type`, and its `sequence_id` used for
cursor tracking; the streaming subsystem's code is not among the given
sources.  The payload is outside this core. -/
structure CEvent where
  channel : Nat
  ctype : CType
  seq : Nat
  deriving DecidableEq, Repr

/-- Modelled from the spec: the static configuration of a Connection's
backoff and liveness behaviour (§4.2) — base delay, maximum delay,
stability window and whether the Backend Profile supports cursor resume;
the streaming subsystem's code is not among the given sources. -/
structure StreamCfg where
  baseDelay : Nat
  maxDelay : Nat
  stabilityWindow : Nat
  resumeSupported : Bool
  deriving DecidableEq, Repr

/-- Modelled from the spec: the exponential reconnect backoff (§4.2) — a
base delay doubling per attempt, capped at a maximum delay; the streaming
subsystem's code is not among the given sources. -/
def backoff (cfg : StreamCfg) (attempt : Nat) : Nat :=
  min (cfg.baseDelay * 2 ^ attempt) cfg.maxDelay

/-- Modelled from the spec: the Connection status set (§3); the streaming
subsystem's code is not among the given sources. -/
inductive ConnStatus where
  | idle
  | connecting
  | opened
  | reconnecting
  | closed
  deriving DecidableEq, Repr

/-- Modelled from the spec: a Connection (§3) serving one Channel —
status, `reconnect_attempt`, how long it has been continuously Open,
`last_event_cursor`, the scheduled backoff deadline, the served Channel's
identifier and the handles of its current Subscriptions; the streaming
subsystem's code is not among the given sources. -/
structure Conn where
  status : ConnStatus
  reconnect_attempt : Nat
  openFor : Nat
  last_event_cursor : Nat
  backoffDeadline : Nat
  channel : Nat
  subs : List Nat
  deriving DecidableEq, Repr

/-- Modelled from the spec: the inputs of the Connection State Machine
(§4.2, §7) — lifecycle triggers, received frames, and the error classes
relevant to state transitions; the streaming subsystem's code is not among
the given sources. -/
inductive ConnEv where
  | start
  | connectOk
  | connectFail
  | frame (seq : Nat)
  | idleTimeout
  | authErr
  | backoffElapsed
  | tick
  | closeAll
  deriving DecidableEq, Repr

/-- Modelled from the spec: the observable actions of the Connection State
Machine (§4.2, §5) — opening a transport, scheduling a reconnect, resuming
from a cursor, and delivering a Canonical Event to a subscriber handle;
the streaming subsystem's code is not among the given sources. -/
inductive ConnOut where
  | openTransport
  | scheduleReconnect (delay : Nat)
  | resumeFrom (cursor : Nat)
  | deliver (handle : Nat) (e : CEvent)
  deriving DecidableEq, Repr

/-- The terminal `error` Canonical Event surfaced to a Connection's
subscribers on a fatal failure (§7). -/
def errEvent (c : Conn) : CEvent :=
  ⟨c.channel, .error, c.last_event_cursor⟩

/-- Modelled from the spec: one transition of the Connection State Machine
(§4.2, §7); the streaming subsystem's code is not among the given sources.
`Idle → Connecting → Open → {Reconnecting, Closed}`;
`Reconnecting → Connecting` after the backoff deadline, or `→ Closed` on a
fatal error.  `AuthError` is fatal from any live state: the Connection goes
directly to `Closed` and every current subscriber receives one terminal
`error` event.  While Open, each tick extends the continuous-open duration
and `reconnect_attempt` resets once that duration reaches the stability
window.  On entering Open, if the profile supports cursor resume the
connection re-requests from `last_event_cursor`. -/
def stepConn (cfg : StreamCfg) (c : Conn) (e : ConnEv) : Conn × List ConnOut :=
  match c.status, e with
  | .closed, _ => (c, [])
  | .idle, .start => ({ c with status := .connecting }, [.openTransport])
  | .connecting, .connectOk =>
      ({ c with status := .opened, openFor := 0 },
       if cfg.resumeSupported then [.resumeFrom c.last_event_cursor] else [])
  | .connecting, .connectFail =>
      ({ c with status := .reconnecting,
                backoffDeadline := backoff cfg c.reconnect_attempt },
       [.scheduleReconnect (backoff cfg c.reconnect_attempt)])
  | .connecting, .authErr =>
      ({ c with status := .closed }, c.subs.map (fun h => .deliver h (errEvent c)))
  | .opened, .frame seq =>
      ({ c with last_event_cursor := max c.last_event_cursor seq },
       if c.last_event_cursor < seq
         then c.subs.map (fun h => .deliver h ⟨c.channel, .update, seq⟩)
         else [])
  | .opened, .tick =>
      ({ c with openFor := c.openFor + 1,
                reconnect_attempt :=
                  if cfg.stabilityWindow ≤ c.openFor + 1 then 0
                  else c.reconnect_attempt }, [])
  | .opened, .idleTimeout =>
      ({ c with status := .reconnecting,
                backoffDeadline := backoff cfg c.reconnect_attempt },
       [.scheduleReconnect (backoff cfg c.reconnect_attempt)])
  | .opened, .authErr =>
      ({ c with status := .closed }, c.subs.map (fun h => .deliver h (errEvent c)))
  | .reconnecting, .backoffElapsed =>
      ({ c with status := .connecting, reconnect_attempt := c.reconnect_attempt + 1 },
       [.openTransport])
  | .reconnecting, .authErr =>
      ({ c with status := .closed }, c.subs.map (fun h => .deliver h (errEvent c)))
  | _, .closeAll => ({ c with status := .closed }, [])
  | _, _ => (c, [])

/-- Modelled from the spec: one poll of the Polling Fallback (§4.6); the
streaming subsystem's code is not among the given sources.  It fetches a
batch of item ids, keeps those newer than `last_event_cursor`, sorts them
ascending, synthesizes one `update` Canonical Event per new item and
advances the cursor to the maximum id seen. -/
def pollOnce (channel cursor : Nat) (items : List Nat) : List CEvent × Nat :=
  let fresh := (items.filter (fun i => decide (cursor < i))).insertionSort (· ≤ ·)
  (fresh.map (fun i => ⟨channel, .update, i⟩), items.foldl max cursor)

/-- Modelled from the spec: the Dispatcher's fan-out (§4.5); the streaming
subsystem's code is not among the given sources.  Each normalized event is
delivered to the Subscriptions of its Channel, events in arrival order. -/
def dispatch (subsOf : Nat → List Nat) (evs : List CEvent) : List (Nat × CEvent) :=
  evs.flatMap (fun e => (subsOf e.channel).map (fun h => (h, e)))

/-- The events delivered to handle `h` for Channel `ch`, in delivery order. -/
def deliveredTo (h ch : Nat) (out : List (Nat × CEvent)) : List CEvent :=
  (out.filter (fun p => p.1 == h && p.2.channel == ch)).map Prod.snd

/-- The restriction of an event sequence to one Channel, in sequence order. -/
def chView (ch : Nat) (evs : List CEvent) : List CEvent :=
  evs.filter (fun e => e.channel == ch)

/-- Modelled from the spec: the Channel kinds (§3: `user`, `public`,
`public_local`, `hashtag`, `list`, `direct`, `conversation`, here `pub` and
`pubLocal` for the two public kinds); the streaming subsystem's code is not
among the given sources. -/
inductive ChannelKind where
  | user
  | pub
  | pubLocal
  | hashtag
  | list
  | direct
  | conversation
  deriving DecidableEq, Repr

/-- Modelled from the spec: a Channel value object (§3) with structural
equality; the streaming subsystem's code is not among the given sources. -/
structure Channel where
  backend_id : Nat
  kind : ChannelKind
  selector : String
  deriving DecidableEq, Repr

/-- Modelled from the spec: the caller-facing inbound interface of the core
(§6) — exactly `subscribe(channel_spec)` with a registered callback and
`unsubscribe(subscription_handle)`; the streaming subsystem's code is not
among the given sources. -/
inductive CoreOp where
  | subscribe (channel_spec : Channel) (callback : Nat)
  | unsubscribe (subscription_handle : Nat)
  deriving DecidableEq, Repr

/-- Modelled from the spec: the subscription registry of the Multiplexer
(§4.3), tracking the next fresh handle and the current Subscriptions
(handle, Channel, callback); the streaming subsystem's code is not among
the given sources. -/
structure MuxState where
  nextHandle : Nat
  subscriptions : List (Nat × Channel × Nat)
  deriving DecidableEq, Repr

/-- Modelled from the spec: applying one inbound operation (§4.3, §6) —
`subscribe` registers a Subscription and returns a fresh
subscription_handle, `unsubscribe` removes the handle's Subscription and
returns nothing; the streaming subsystem's code is not among the given
sources. -/
def applyCore (st : MuxState) (op : CoreOp) : MuxState × Option Nat :=
  match op with
  | .subscribe ch cb =>
      ({ nextHandle := st.nextHandle + 1,
         subscriptions := st.subscriptions ++ [(st.nextHandle, ch, cb)] },
       some st.nextHandle)
  | .unsubscribe h =>
      ({ st with subscriptions := st.subscriptions.filter (fun s => s.1 != h) }, none)

/-- A two-channel normalized event run used to exhibit that per-channel
order does not constrain cross-channel interleaving. -/
def twoChannelRun : List CEvent :=
  [⟨0, .update, 1⟩, ⟨1, .update, 2⟩]

@[simp] theorem keysOf_mk (v : Verb) (s : String) (p : List (String × Value)) :
    keysOf ⟨v, s, p⟩ = p.map Prod.fst := rfl

@[simp] theorem map_fst_assignIf (c : Bool) (k : String) (v : Value)
    (p : List (String × Value)) :
    (assignIf c k v p).map Prod.fst = p.map Prod.fst ++ (if c then [k] else []) := by
  cases c <;> simp [assignIf]

@[simp] theorem length_assignIf (c : Bool) (k : String) (v : Value)
    (p : List (String × Value)) :
    (assignIf c k v p).length = p.length + c.toNat := by
  cases c <;> simp [assignIf]

theorem ite_singleton_sublist (c : Bool) (k : String) :
    List.Sublist (if c then [k] else []) [k] := by
  cases c <;> simp

namespace Mastodon

theorem registerAccount_direct (username email password : String) (agreement : Bool)
    (locale : String) (reason : Option String) :
    (keysOf (registerAccount username email password agreement locale reason)).Nodup ∧
    (registerAccount username email password agreement locale reason).params.length
      = 5 + (truthyS reason).toNat := by
  constructor
  · have h : List.Sublist (keysOf (registerAccount username email password agreement locale reason))
        (["username", "email", "password", "agreement", "locale"] ++ ["reason"]) := by
      simp only [registerAccount, keysOf_mk, map_fst_assignIf, List.map_cons, List.map_nil]
      exact (List.Sublist.refl _).append (ite_singleton_sublist _ _)
    exact List.Nodup.sublist h (by decide)
  · simp [registerAccount]

theorem updateCredentials_direct (discoverable : Option String) (bot : Option Bool)
    (display_name note avatar header : Option String) (locked : Option Bool)
    (source : Option Source) (fields_attributes : List (String × String)) :
    (keysOf (updateCredentials discoverable bot display_name note avatar header locked
      source fields_attributes)).Nodup ∧
    (updateCredentials discoverable bot display_name note avatar header locked
      source fields_attributes).params.length
      = (truthyS discoverable).toNat + bot.isSome.toNat + (truthyS display_name).toNat
        + (truthyS note).toNat + (truthyS avatar).toNat + (truthyS header).toNat
        + locked.isSome.toNat + source.isSome.toNat + 1 := by
  constructor
  · have h : List.Sublist (keysOf (updateCredentials discoverable bot display_name note
        avatar header locked source fields_attributes))
        (((((((((([] : List String) ++ ["discoverable"]) ++ ["bot"]) ++ ["display_name"])
          ++ ["note"]) ++ ["avatar"]) ++ ["header"]) ++ ["locked"]) ++ ["source"])
          ++ ["fields_attributes"]) := by
      simp only [updateCredentials, keysOf_mk, map_fst_assignIf, List.map_nil]
      exact (((((((((List.Sublist.refl _).append (ite_singleton_sublist _ _)).append
        (ite_singleton_sublist _ _)).append (ite_singleton_sublist _ _)).append
        (ite_singleton_sublist _ _)).append (ite_singleton_sublist _ _)).append
        (ite_singleton_sublist _ _)).append (ite_singleton_sublist _ _)).append
        (ite_singleton_sublist _ _)).append (by simp)
    exact List.Nodup.sublist h (by decide)
  · simp [updateCredentials]

theorem getAccountFollowers_direct (id : String) (limit : Option Int)
    (max_id since_id : Option String) :
    (keysOf (getAccountFollowers id limit max_id since_id)).Nodup ∧
    (getAccountFollowers id limit max_id since_id).params.length
      = (truthyS max_id).toNat + (truthyS since_id).toNat + (truthyN limit).toNat := by
  constructor
  · have h : List.Sublist (keysOf (getAccountFollowers id limit max_id since_id))
        (((([] : List String) ++ ["max_id"]) ++ ["since_id"]) ++ ["limit"]) := by
      simp only [getAccountFollowers, keysOf_mk, map_fst_assignIf, List.map_nil]
      exact (((List.Sublist.refl _).append (ite_singleton_sublist _ _)).append
        (ite_singleton_sublist _ _)).append (ite_singleton_sublist _ _)
    exact List.Nodup.sublist h (by decide)
  · simp [getAccountFollowers]

theorem getAccountFollowing_direct (id : String) (limit : Option Int)
    (max_id since_id : Option String) :
    (keysOf (getAccountFollowing id limit max_id since_id)).Nodup ∧
    (getAccountFollowing id limit max_id since_id).params.length
      = (truthyS max_id).toNat + (truthyS since_id).toNat + (truthyN limit).toNat := by
  constructor
  · have h : List.Sublist (keysOf (getAccountFollowing id limit max_id since_id))
        (((([] : List String) ++ ["max_id"]) ++ ["since_id"]) ++ ["limit"]) := by
      simp only [getAccountFollowing, keysOf_mk, map_fst_assignIf, List.map_nil]
      exact (((List.Sublist.refl _).append (ite_singleton_sublist _ _)).append
        (ite_singleton_sublist _ _)).append (ite_singleton_sublist _ _)
    exact List.Nodup.sublist h (by decide)
  · simp [getAccountFollowing]

theorem searchAccount_direct (q : String) (limit : Option Int)
    (max_id since_id : Option String) :
    (keysOf (searchAccount q limit max_id since_id)).Nodup ∧
    (searchAccount q limit max_id since_id).params.length
      = 1 + (truthyS max_id).toNat + (truthyS since_id).toNat + (truthyN limit).toNat := by
  constructor
  · have h : List.Sublist (keysOf (searchAccount q limit max_id since_id))
        (((["q"] ++ ["max_id"]) ++ ["since_id"]) ++ ["limit"]) := by
      simp only [searchAccount, keysOf_mk, map_fst_assignIf, List.map_cons, List.map_nil]
      exact (((List.Sublist.refl _).append (ite_singleton_sublist _ _)).append
        (ite_singleton_sublist _ _)).append (ite_singleton_sublist _ _)
    exact List.Nodup.sublist h (by decide)
  · simp [searchAccount]

theorem getBookmarks_direct (limit : Option Int) (max_id since_id min_id : Option String) :
    (keysOf (getBookmarks limit max_id since_id min_id)).Nodup ∧
    (getBookmarks limit max_id since_id min_id).params.length
      = (truthyS max_id).toNat + (truthyS since_id).toNat + (truthyN limit).toNat
        + (truthyS min_id).toNat := by
  constructor
  · have h : List.Sublist (keysOf (getBookmarks limit max_id since_id min_id))
        ((((([] : List String) ++ ["max_id"]) ++ ["since_id"]) ++ ["limit"]) ++ ["min_id"]) := by
      simp only [getBookmarks, keysOf_mk, map_fst_assignIf, List.map_nil]
      exact ((((List.Sublist.refl _).append (ite_singleton_sublist _ _)).append
        (ite_singleton_sublist _ _)).append (ite_singleton_sublist _ _)).append
        (ite_singleton_sublist _ _)
    exact List.Nodup.sublist h (by decide)
  · simp [getBookmarks]

theorem getFavourites_direct (limit : Option Int) (min_id max_id : Option String) :
    (keysOf (getFavourites limit min_id max_id)).Nodup ∧
    (getFavourites limit min_id max_id).params.length
      = (truthyS min_id).toNat + (truthyS max_id).toNat + (truthyN limit).toNat := by
  constructor
  · have h : List.Sublist (keysOf (getFavourites limit min_id max_id))
        (((([] : List String) ++ ["min_id"]) ++ ["max_id"]) ++ ["limit"]) := by
      simp only [getFavourites, keysOf_mk, map_fst_assignIf, List.map_nil]
      exact (((List.Sublist.refl _).append (ite_singleton_sublist _ _)).append
        (ite_singleton_sublist _ _)).append (ite_singleton_sublist _ _)
    exact List.Nodup.sublist h (by decide)
  · simp [getFavourites]

theorem getMutes_direct (limit : Option Int) (max_id min_id : Option String) :
    (keysOf (getMutes limit max_id min_id)).Nodup ∧
    (getMutes limit max_id min_id).params.length
      = (truthyS min_id).toNat + (truthyS max_id).toNat + (truthyN limit).toNat := by
  constructor
  · have h : List.Sublist (keysOf (getMutes limit max_id min_id))
        (((([] : List String) ++ ["min_id"]) ++ ["max_id"]) ++ ["limit"]) := by
      simp only [getMutes, keysOf_mk, map_fst_assignIf, List.map_nil]
      exact (((List.Sublist.refl _).append (ite_singleton_sublist _ _)).append
        (ite_singleton_sublist _ _)).append (ite_singleton_sublist _ _)
    exact List.Nodup.sublist h (by decide)
  · simp [getMutes]

theorem getBlocks_direct (limit : Option Int) (max_id min_id : Option String) :
    (keysOf (getBlocks limit max_id min_id)).Nodup ∧
    (getBlocks limit max_id min_id).params.length
      = (truthyS min_id).toNat + (truthyS max_id).toNat + (truthyN limit).toNat := by
  constructor
  · have h : List.Sublist (keysOf (getBlocks limit max_id min_id))
        (((([] : List String) ++ ["min_id"]) ++ ["max_id"]) ++ ["limit"]) := by
      simp only [getBlocks, keysOf_mk, map_fst_assignIf, List.map_nil]
      exact (((List.Sublist.refl _).append (ite_singleton_sublist _ _)).append
        (ite_singleton_sublist _ _)).append (ite_singleton_sublist _ _)
    exact List.Nodup.sublist h (by decide)
  · simp [getBlocks]

theorem getDomainBlocks_direct (limit : Option Int) (max_id min_id : Option String) :
    (keysOf (getDomainBlocks limit max_id min_id)).Nodup ∧
    (getDomainBlocks limit max_id min_id).params.length
      = (truthyS min_id).toNat + (truthyS max_id).toNat + (truthyN limit).toNat := by
  constructor
  · have h : List.Sublist (keysOf (getDomainBlocks limit max_id min_id))
        (((([] : List String) ++ ["min_id"]) ++ ["max_id"]) ++ ["limit"]) := by
      simp only [getDomainBlocks, keysOf_mk, map_fst_assignIf, List.map_nil]
      exact (((List.Sublist.refl _).append (ite_singleton_sublist _ _)).append
        (ite_singleton_sublist _ _)).append (ite_singleton_sublist _ _)
    exact List.Nodup.sublist h (by decide)
  · simp [getDomainBlocks]

theorem createFilter_direct (phrase : String) (context : List String)
    (irreversible whole_word : Option Bool) (expires_in : Option String) :
    (keysOf (createFilter phrase context irreversible whole_word expires_in)).Nodup ∧
    (createFilter phrase context irreversible whole_word expires_in).params.length
      = 2 + (truthyB irreversible).toNat + (truthyB whole_word).toNat
        + (truthyS expires_in).toNat := by
  constructor
  · have h : List.Sublist (keysOf (createFilter phrase context irreversible whole_word expires_in))
        (((["phrase", "context"] ++ ["irreversible"]) ++ ["whole_word"]) ++ ["expires_in"]) := by
      simp only [createFilter, keysOf_mk, map_fst_assignIf, List.map_cons, List.map_nil]
      exact (((List.Sublist.refl _).append (ite_singleton_sublist _ _)).append
        (ite_singleton_sublist _ _)).append (ite_singleton_sublist _ _)
    exact List.Nodup.sublist h (by decide)
  · simp [createFilter]

theorem updateFilter_direct (id phrase : String) (context : List String)
    (irreversible whole_word : Option Bool) (expires_in : Option String) :
    (keysOf (updateFilter id phrase context irreversible whole_word expires_in)).Nodup ∧
    (updateFilter id phrase context irreversible whole_word expires_in).params.length
      = 2 + (truthyB irreversible).toNat + (truthyB whole_word).toNat
        + (truthyS expires_in).toNat := by
  constructor
  · have h : List.Sublist (keysOf (updateFilter id phrase context irreversible whole_word expires_in))
        (((["phrase", "context"] ++ ["irreversible"]) ++ ["whole_word"]) ++ ["expires_in"]) := by
      simp only [updateFilter, keysOf_mk, map_fst_assignIf, List.map_cons, List.map_nil]
      exact (((List.Sublist.refl _).append (ite_singleton_sublist _ _)).append
        (ite_singleton_sublist _ _)).append (ite_singleton_sublist _ _)
    exact List.Nodup.sublist h (by decide)
  · simp [updateFilter]

theorem report_direct (account_id : String) (status_ids : Option (List String))
    (comment : Option String) (forward : Option Bool) :
    (keysOf (report account_id status_ids comment forward)).Nodup ∧
    (report account_id status_ids comment forward).params.length
      = 1 + status_ids.isSome.toNat + (truthyS comment).toNat + (truthyB forward).toNat := by
  constructor
  · have h : List.Sublist (keysOf (report account_id status_ids comment forward))
        (((["account_id"] ++ ["status_ids"]) ++ ["comment"]) ++ ["forward"]) := by
      simp only [report, keysOf_mk, map_fst_assignIf, List.map_cons, List.map_nil]
      exact (((List.Sublist.refl _).append (ite_singleton_sublist _ _)).append
        (ite_singleton_sublist _ _)).append (ite_singleton_sublist _ _)
    exact List.Nodup.sublist h (by decide)
  · simp [report]

theorem getFollowRequests_direct (limit : Option Int) :
    (keysOf (getFollowRequests limit)).Nodup ∧
    (getFollowRequests limit).params.length = (truthyN limit).toNat := by
  cases h : truthyN limit <;> simp [getFollowRequests, h, keysOf]

theorem getEndorsements_direct (limit : Option Int) (max_id since_id : Option String) :
    (keysOf (getEndorsements limit max_id since_id)).Nodup ∧
    (getEndorsements limit max_id since_id).params.length
      = (truthyN limit).toNat + (truthyS max_id).toNat + (truthyS since_id).toNat := by
  constructor
  · have h : List.Sublist (keysOf (getEndorsements limit max_id since_id))
        (((([] : List String) ++ ["limit"]) ++ ["max_id"]) ++ ["since_id"]) := by
      simp only [getEndorsements, keysOf_mk, map_fst_assignIf, List.map_nil]
      exact (((List.Sublist.refl _).append (ite_singleton_sublist _ _)).append
        (ite_singleton_sublist _ _)).append (ite_singleton_sublist _ _)
    exact List.Nodup.sublist h (by decide)
  · simp [getEndorsements]

theorem getSuggestions_direct (limit : Option Int) :
    (keysOf (getSuggestions limit)).Nodup ∧
    (getSuggestions limit).params.length = (truthyN limit).toNat := by
  cases h : truthyN limit <;> simp [getSuggestions, h, keysOf]

theorem postStatus_direct (status : String) (media_ids : List String) (poll : Option PollIn)
    (in_reply_to_id : Option String) (sensitive : Option Bool)
    (spoiler_text visibility scheduled_at language : Option String) :
    (keysOf (postStatus status media_ids poll in_reply_to_id sensitive spoiler_text
      visibility scheduled_at language)).Nodup ∧
    (postStatus status media_ids poll in_reply_to_id sensitive spoiler_text
      visibility scheduled_at language).params.length
      = 1 + (decide (0 < media_ids.length)).toNat + poll.isSome.toNat
        + (truthyS in_reply_to_id).toNat + (truthyB sensitive).toNat
        + (truthyS spoiler_text).toNat + (truthyS visibility).toNat
        + (truthyS scheduled_at).toNat + (truthyS language).toNat := by
  constructor
  · have h : List.Sublist (keysOf (postStatus status media_ids poll in_reply_to_id sensitive
        spoiler_text visibility scheduled_at language))
        ((((((((["status"] ++ ["media_ids"]) ++ ["poll"]) ++ ["in_reply_to_id"])
          ++ ["sensitive"]) ++ ["spoiler_text"]) ++ ["visibility"]) ++ ["scheduled_at"])
          ++ ["language"]) := by
      simp only [postStatus, keysOf_mk, map_fst_assignIf, List.map_cons, List.map_nil]
      exact ((((((((List.Sublist.refl _).append (ite_singleton_sublist _ _)).append
        (ite_singleton_sublist _ _)).append (ite_singleton_sublist _ _)).append
        (ite_singleton_sublist _ _)).append (ite_singleton_sublist _ _)).append
        (ite_singleton_sublist _ _)).append (ite_singleton_sublist _ _)).append
        (ite_singleton_sublist _ _)
    exact List.Nodup.sublist h (by decide)
  · simp [postStatus]

theorem uploadMedia_direct (file : Value) (description focus : Option String) :
    (keysOf (uploadMedia file description focus)).Nodup ∧
    (uploadMedia file description focus).params.length
      = 1 + (truthyS description).toNat + (truthyS focus).toNat := by
  constructor
  · have h : List.Sublist (keysOf (uploadMedia file description focus))
        ((["file"] ++ ["description"]) ++ ["focus"]) := by
      simp only [uploadMedia, keysOf_mk, map_fst_assignIf, List.map_cons, List.map_nil]
      exact ((List.Sublist.refl _).append (ite_singleton_sublist _ _)).append
        (ite_singleton_sublist _ _)
    exact List.Nodup.sublist h (by decide)
  · simp [uploadMedia]

theorem updateMedia_direct (id : String) (file : Option Value)
    (description focus : Option String) :
    (keysOf (updateMedia id file description focus)).Nodup ∧
    (updateMedia id file description focus).params.length
      = file.isSome.toNat + (truthyS description).toNat + (truthyS focus).toNat := by
  constructor
  · have h : List.Sublist (keysOf (updateMedia id file description focus))
        (((([] : List String) ++ ["file"]) ++ ["description"]) ++ ["focus"]) := by
      simp only [updateMedia, keysOf_mk, map_fst_assignIf, List.map_nil]
      exact (((List.Sublist.refl _).append (ite_singleton_sublist _ _)).append
        (ite_singleton_sublist _ _)).append (ite_singleton_sublist _ _)
    exact List.Nodup.sublist h (by decide)
  · simp [updateMedia]

theorem getScheduledStatuses_direct (limit : Option Int)
    (max_id since_id min_id : Option String) :
    (keysOf (getScheduledStatuses limit max_id since_id min_id)).Nodup ∧
    (getScheduledStatuses limit max_id since_id min_id).params.length
      = (truthyN limit).toNat + (truthyS max_id).toNat + (truthyS since_id).toNat
        + (truthyS min_id).toNat := by
  constructor
  · have h : List.Sublist (keysOf (getScheduledStatuses limit max_id since_id min_id))
        ((((([] : List String) ++ ["limit"]) ++ ["max_id"]) ++ ["since_id"]) ++ ["min_id"]) := by
      simp only [getScheduledStatuses, keysOf_mk, map_fst_assignIf, List.map_nil]
      exact ((((List.Sublist.refl _).append (ite_singleton_sublist _ _)).append
        (ite_singleton_sublist _ _)).append (ite_singleton_sublist _ _)).append
        (ite_singleton_sublist _ _)
    exact List.Nodup.sublist h (by decide)
  · simp [getScheduledStatuses]

theorem scheduleStatus_direct (id : String) (scheduled_at : Option String) :
    (keysOf (scheduleStatus id scheduled_at)).Nodup ∧
    (scheduleStatus id scheduled_at).params.length = (truthyS scheduled_at).toNat := by
  constructor
  · have h : List.Sublist (keysOf (scheduleStatus id scheduled_at))
        (([] : List String) ++ ["scheduled_at"]) := by
      simp only [scheduleStatus, keysOf_mk, map_fst_assignIf, List.map_nil]
      exact (List.Sublist.refl _).append (ite_singleton_sublist _ _)
    exact List.Nodup.sublist h (by decide)
  · simp [scheduleStatus]

end Mastodon

theorem le_foldl_max (l : List Nat) (a : Nat) : a ≤ l.foldl max a := by
  induction l generalizing a with
  | nil => exact le_refl a
  | cons x t ih => exact le_trans (le_max_left a x) (ih (max a x))

theorem count_deliver_map (subs : List Nat) (h : Nat) (ev : CEvent) :
    ((subs.map (fun x => ConnOut.deliver x ev)).count (ConnOut.deliver h ev))
      = subs.count h :=
  List.count_map_of_injective subs (fun x => ConnOut.deliver x ev)
    (fun a b hab => by simpa using hab) h

theorem deliveredTo_append (h ch : Nat) (o1 o2 : List (Nat × CEvent)) :
    deliveredTo h ch (o1 ++ o2) = deliveredTo h ch o1 ++ deliveredTo h ch o2 := by
  simp [deliveredTo]

theorem deliveredTo_block (h ch : Nat) (e : CEvent) (s : List Nat) :
    deliveredTo h ch (s.map (fun x => (x, e)))
      = if e.channel == ch then List.replicate (s.count h) e else [] := by
  induction s with
  | nil => cases hch : (e.channel == ch) <;> simp [deliveredTo, hch]
  | cons a t ih =>
    cases hch : (e.channel == ch) <;> cases hah : (a == h) <;>
      simp_all [deliveredTo, List.filter_cons, List.count_cons, List.replicate_succ]

theorem dispatch_cons (subsOf : Nat → List Nat) (e : CEvent) (t : List CEvent) :
    dispatch subsOf (e :: t)
      = (subsOf e.channel).map (fun h => (h, e)) ++ dispatch subsOf t := by
  simp [dispatch]

theorem mem_ite_singleton (a k : String) (c : Bool) :
    (a ∈ if c then [k] else []) ↔ (c = true ∧ a = k) := by
  cases c <;> simp

/-- C1: every public REST wrapper method of the `Mastodon` class is a
direct mapping of one method call to one endpoint.  Each wrapper is
embedded as a pure function from its arguments to the single `Request` it
issues (one HTTP verb, one path, one request-parameter object), so "no
retry, no reordering, no state machine" holds by construction of the
embedding; this theorem states the remaining content: for every wrapper
and every argument combination, the parameter object binds each key at
most once (`Nodup`), and its size is exactly the number of mandatory
parameters plus one key per provided optional argument — i.e. each
optional argument contributes at most one key.  Wrappers with fixed
parameter objects are characterized by the exact object they send. -/
theorem c1_rest_wrappers_direct_mapping :
    (∀ (username email password : String) (agreement : Bool) (locale : String)
        (reason : Option String),
      (keysOf (Mastodon.registerAccount username email password agreement locale reason)).Nodup ∧
      (Mastodon.registerAccount username email password agreement locale reason).params.length
        = 5 + (truthyS reason).toNat) ∧
    (∀ (discoverable : Option String) (bot : Option Bool)
        (display_name note avatar header : Option String) (locked : Option Bool)
        (source : Option Mastodon.Source) (fields_attributes : List (String × String)),
      (keysOf (Mastodon.updateCredentials discoverable bot display_name note avatar header
        locked source fields_attributes)).Nodup ∧
      (Mastodon.updateCredentials discoverable bot display_name note avatar header locked
        source fields_attributes).params.length
        = (truthyS discoverable).toNat + bot.isSome.toNat + (truthyS display_name).toNat
          + (truthyS note).toNat + (truthyS avatar).toNat + (truthyS header).toNat
          + locked.isSome.toNat + source.isSome.toNat + 1) ∧
    (∀ (id : String) (limit : Option Int) (max_id since_id : Option String),
      (keysOf (Mastodon.getAccountFollowers id limit max_id since_id)).Nodup ∧
      (Mastodon.getAccountFollowers id limit max_id since_id).params.length
        = (truthyS max_id).toNat + (truthyS since_id).toNat + (truthyN limit).toNat) ∧
    (∀ (id : String) (limit : Option Int) (max_id since_id : Option String),
      (keysOf (Mastodon.getAccountFollowing id limit max_id since_id)).Nodup ∧
      (Mastodon.getAccountFollowing id limit max_id since_id).params.length
        = (truthyS max_id).toNat + (truthyS since_id).toNat + (truthyN limit).toNat) ∧
    (∀ (q : String) (limit : Option Int) (max_id since_id : Option String),
      (keysOf (Mastodon.searchAccount q limit max_id since_id)).Nodup ∧
      (Mastodon.searchAccount q limit max_id since_id).params.length
        = 1 + (truthyS max_id).toNat + (truthyS since_id).toNat + (truthyN limit).toNat) ∧
    (∀ (limit : Option Int) (max_id since_id min_id : Option String),
      (keysOf (Mastodon.getBookmarks limit max_id since_id min_id)).Nodup ∧
      (Mastodon.getBookmarks limit max_id since_id min_id).params.length
        = (truthyS max_id).toNat + (truthyS since_id).toNat + (truthyN limit).toNat
          + (truthyS min_id).toNat) ∧
    (∀ (limit : Option Int) (min_id max_id : Option String),
      (keysOf (Mastodon.getFavourites limit min_id max_id)).Nodup ∧
      (Mastodon.getFavourites limit min_id max_id).params.length
        = (truthyS min_id).toNat + (truthyS max_id).toNat + (truthyN limit).toNat) ∧
    (∀ (limit : Option Int) (max_id min_id : Option String),
      (keysOf (Mastodon.getMutes limit max_id min_id)).Nodup ∧
      (Mastodon.getMutes limit max_id min_id).params.length
        = (truthyS min_id).toNat + (truthyS max_id).toNat + (truthyN limit).toNat) ∧
    (∀ (limit : Option Int) (max_id min_id : Option String),
      (keysOf (Mastodon.getBlocks limit max_id min_id)).Nodup ∧
      (Mastodon.getBlocks limit max_id min_id).params.length
        = (truthyS min_id).toNat + (truthyS max_id).toNat + (truthyN limit).toNat) ∧
    (∀ (limit : Option Int) (max_id min_id : Option String),
      (keysOf (Mastodon.getDomainBlocks limit max_id min_id)).Nodup ∧
      (Mastodon.getDomainBlocks limit max_id min_id).params.length
        = (truthyS min_id).toNat + (truthyS max_id).toNat + (truthyN limit).toNat) ∧
    (∀ (phrase : String) (context : List String) (irreversible whole_word : Option Bool)
        (expires_in : Option String),
      (keysOf (Mastodon.createFilter phrase context irreversible whole_word expires_in)).Nodup ∧
      (Mastodon.createFilter phrase context irreversible whole_word expires_in).params.length
        = 2 + (truthyB irreversible).toNat + (truthyB whole_word).toNat
          + (truthyS expires_in).toNat) ∧
    (∀ (id phrase : String) (context : List String) (irreversible whole_word : Option Bool)
        (expires_in : Option String),
      (keysOf (Mastodon.updateFilter id phrase context irreversible whole_word expires_in)).Nodup ∧
      (Mastodon.updateFilter id phrase context irreversible whole_word expires_in).params.length
        = 2 + (truthyB irreversible).toNat + (truthyB whole_word).toNat
          + (truthyS expires_in).toNat) ∧
    (∀ (account_id : String) (status_ids : Option (List String)) (comment : Option String)
        (forward : Option Bool),
      (keysOf (Mastodon.report account_id status_ids comment forward)).Nodup ∧
      (Mastodon.report account_id status_ids comment forward).params.length
        = 1 + status_ids.isSome.toNat + (truthyS comment).toNat + (truthyB forward).toNat) ∧
    (∀ limit : Option Int,
      (keysOf (Mastodon.getFollowRequests limit)).Nodup ∧
      (Mastodon.getFollowRequests limit).params.length = (truthyN limit).toNat) ∧
    (∀ (limit : Option Int) (max_id since_id : Option String),
      (keysOf (Mastodon.getEndorsements limit max_id since_id)).Nodup ∧
      (Mastodon.getEndorsements limit max_id since_id).params.length
        = (truthyN limit).toNat + (truthyS max_id).toNat + (truthyS since_id).toNat) ∧
    (∀ limit : Option Int,
      (keysOf (Mastodon.getSuggestions limit)).Nodup ∧
      (Mastodon.getSuggestions limit).params.length = (truthyN limit).toNat) ∧
    (∀ (status : String) (media_ids : List String) (poll : Option Mastodon.PollIn)
        (in_reply_to_id : Option String) (sensitive : Option Bool)
        (spoiler_text visibility scheduled_at language : Option String),
      (keysOf (Mastodon.postStatus status media_ids poll in_reply_to_id sensitive
        spoiler_text visibility scheduled_at language)).Nodup ∧
      (Mastodon.postStatus status media_ids poll in_reply_to_id sensitive spoiler_text
        visibility scheduled_at language).params.length
        = 1 + (decide (0 < media_ids.length)).toNat + poll.isSome.toNat
          + (truthyS in_reply_to_id).toNat + (truthyB sensitive).toNat
          + (truthyS spoiler_text).toNat + (truthyS visibility).toNat
          + (truthyS scheduled_at).toNat + (truthyS language).toNat) ∧
    (∀ (file : Value) (description focus : Option String),
      (keysOf (Mastodon.uploadMedia file description focus)).Nodup ∧
      (Mastodon.uploadMedia file description focus).params.length
        = 1 + (truthyS description).toNat + (truthyS focus).toNat) ∧
    (∀ (id : String) (file : Option Value) (description focus : Option String),
      (keysOf (Mastodon.updateMedia id file description focus)).Nodup ∧
      (Mastodon.updateMedia id file description focus).params.length
        = file.isSome.toNat + (truthyS description).toNat + (truthyS focus).toNat) ∧
    (∀ (limit : Option Int) (max_id since_id min_id : Option String),
      (keysOf (Mastodon.getScheduledStatuses limit max_id since_id min_id)).Nodup ∧
      (Mastodon.getScheduledStatuses limit max_id since_id min_id).params.length
        = (truthyN limit).toNat + (truthyS max_id).toNat + (truthyS since_id).toNat
          + (truthyS min_id).toNat) ∧
    (∀ (id : String) (scheduled_at : Option String),
      (keysOf (Mastodon.scheduleStatus id scheduled_at)).Nodup ∧
      (Mastodon.scheduleStatus id scheduled_at).params.length
        = (truthyS scheduled_at).toNat) ∧
    (∀ a b t : String, (Mastodon.revokeToken a b t).params
        = [("client_id", .str a), ("client_secret", .str b), ("token", .str t)]) ∧
    Mastodon.verifyAppCredentails.params = [] ∧
    Mastodon.verifyAccountCredentials.params = [] ∧
    Mastodon.getRelationship.params = [] ∧
    Mastodon.getFilters.params = [] ∧
    Mastodon.getFeaturedTags.params = [] ∧
    Mastodon.getSuggestedTags.params = [] ∧
    Mastodon.getPreferences.params = [] ∧
    (∀ id : String, (Mastodon.getAccount id).params = []) ∧
    (∀ id : String, (Mastodon.getAccountStatuses id).params = []) ∧
    (∀ id : String, (Mastodon.getAccountLists id).params = []) ∧
    (∀ id : String, (Mastodon.getIdentifyProof id).params = []) ∧
    (∀ (id : String) (reblog : Bool),
      (Mastodon.followAccount id reblog).params = [("reblog", .bool reblog)]) ∧
    (∀ id : String, (Mastodon.unfollowAccount id).params = []) ∧
    (∀ id : String, (Mastodon.blockAccount id).params = []) ∧
    (∀ id : String, (Mastodon.unblockAccount id).params = []) ∧
    (∀ (id : String) (notifications : Bool),
      (Mastodon.muteAccount id notifications).params
        = [("notifications", .bool notifications)]) ∧
    (∀ id : String, (Mastodon.unmuteAccount id).params = []) ∧
    (∀ id : String, (Mastodon.pinAccount id).params = []) ∧
    (∀ id : String, (Mastodon.unpinAccount id).params = []) ∧
    (∀ domain : String, (Mastodon.blockDomain domain).params = [("domain", .str domain)]) ∧
    (∀ domain : String, (Mastodon.unblockDomain domain).params = [("domain", .str domain)]) ∧
    (∀ id : String, (Mastodon.getFilter id).params = []) ∧
    (∀ id : String, (Mastodon.deleteFilter id).params = []) ∧
    (∀ id : String, (Mastodon.acceptFollowRequest id).params = []) ∧
    (∀ id : String, (Mastodon.rejectFollowRequest id).params = []) ∧
    (∀ name : String, (Mastodon.createFeaturedTag name).params = [("name", .str name)]) ∧
    (∀ id : String, (Mastodon.deleteFeaturedTag id).params = []) ∧
    (∀ id : String, (Mastodon.getStatus id).params = []) ∧
    (∀ id : String, (Mastodon.deleteStatus id).params = []) ∧
    (∀ id : String, (Mastodon.getStatusContext id).params = []) ∧
    (∀ id : String, (Mastodon.getStatusRebloggedBy id).params = []) ∧
    (∀ id : String, (Mastodon.getStatusFavouritedBy id).params = []) ∧
    (∀ id : String, (Mastodon.favouriteStatus id).params = []) ∧
    (∀ id : String, (Mastodon.unfavouriteStatus id).params = []) ∧
    (∀ id : String, (Mastodon.reblogStatus id).params = []) ∧
    (∀ id : String, (Mastodon.unreblogStatus id).params = []) ∧
    (∀ id : String, (Mastodon.bookmarkStatus id).params = []) ∧
    (∀ id : String, (Mastodon.unbookmarkStatus id).params = []) ∧
    (∀ id : String, (Mastodon.muteStatus id).params = []) ∧
    (∀ id : String, (Mastodon.unmuteStatus id).params = []) ∧
    (∀ id : String, (Mastodon.pinStatus id).params = []) ∧
    (∀ id : String, (Mastodon.unpinStatus id).params = []) ∧
    (∀ id : String, (Mastodon.getPoll id).params = []) ∧
    (∀ (id : String) (choices : List Int),
      (Mastodon.votePoll id choices).params = [("choices", .numList choices)]) ∧
    (∀ id : String, (Mastodon.getScheduledStatus id).params = []) ∧
    (∀ id : String, (Mastodon.cancelScheduledStatus id).params = []) :=
  ⟨Mastodon.registerAccount_direct, Mastodon.updateCredentials_direct,
   Mastodon.getAccountFollowers_direct, Mastodon.getAccountFollowing_direct,
   Mastodon.searchAccount_direct, Mastodon.getBookmarks_direct,
   Mastodon.getFavourites_direct, Mastodon.getMutes_direct, Mastodon.getBlocks_direct,
   Mastodon.getDomainBlocks_direct, Mastodon.createFilter_direct,
   Mastodon.updateFilter_direct, Mastodon.report_direct, Mastodon.getFollowRequests_direct,
   Mastodon.getEndorsements_direct, Mastodon.getSuggestions_direct,
   Mastodon.postStatus_direct, Mastodon.uploadMedia_direct, Mastodon.updateMedia_direct,
   Mastodon.getScheduledStatuses_direct, Mastodon.scheduleStatus_direct,
   fun _ _ _ => rfl, rfl, rfl, rfl, rfl, rfl, rfl, rfl,
   fun _ => rfl, fun _ => rfl, fun _ => rfl, fun _ => rfl, fun _ _ => rfl,
   fun _ => rfl, fun _ => rfl, fun _ => rfl, fun _ _ => rfl, fun _ => rfl,
   fun _ => rfl, fun _ => rfl, fun _ => rfl, fun _ => rfl, fun _ => rfl,
   fun _ => rfl, fun _ => rfl, fun _ => rfl, fun _ => rfl, fun _ => rfl,
   fun _ => rfl, fun _ => rfl, fun _ => rfl, fun _ => rfl, fun _ => rfl,
   fun _ => rfl, fun _ => rfl, fun _ => rfl, fun _ => rfl, fun _ => rfl,
   fun _ => rfl, fun _ => rfl, fun _ => rfl, fun _ => rfl, fun _ => rfl,
   fun _ => rfl, fun _ _ => rfl, fun _ => rfl, fun _ => rfl⟩

/-- C2: the caller-facing inbound interface of the core consists only of
`subscribe(channel_spec)` returning a subscription_handle and
`unsubscribe(subscription_handle)`: every inbound operation is one of the
two, `subscribe` is the only one that returns a handle, and `unsubscribe`
returns none. -/
theorem c2_inbound_interface :
    (∀ op : CoreOp,
        (∃ (channel_spec : Channel) (cb : Nat), op = .subscribe channel_spec cb) ∨
        (∃ h : Nat, op = .unsubscribe h)) ∧
    (∀ (st : MuxState) (ch : Channel) (cb : Nat),
        (applyCore st (.subscribe ch cb)).2 = some st.nextHandle) ∧
    (∀ (st : MuxState) (h : Nat), (applyCore st (.unsubscribe h)).2 = none) := by
  refine ⟨fun op => ?_, fun st ch cb => rfl, fun st h => rfl⟩
  cases op with
  | subscribe c cb => exact Or.inl ⟨c, cb, rfl⟩
  | unsubscribe h => exact Or.inr ⟨h, rfl⟩

/-- C3: a Polling Fallback with `last_event_cursor = 9` fetching items
`[10, 11, 12]` emits exactly three `update` events in ascending id order
and advances the cursor to 12; a subsequent poll returning only `[12]`
emits zero events (an id ≤ cursor is never re-emitted). -/
theorem c3_poll_scenario :
    pollOnce 0 9 [10, 11, 12]
      = ([⟨0, .update, 10⟩, ⟨0, .update, 11⟩, ⟨0, .update, 12⟩], 12) ∧
    pollOnce 0 12 [12] = ([], 12) := by
  constructor <;> rfl

/-- C8: for every filter id and parameter combination, `updateFilter`
issues its request with HTTP POST to `/api/v1/filters/<id>`, never PUT,
although its endpoint is documented as PUT /api/v1/filters/:id. -/
theorem c8_updateFilter_uses_post :
    ∀ (id phrase : String) (context : List String)
      (irreversible whole_word : Option Bool) (expires_in : Option String),
      (Mastodon.updateFilter id phrase context irreversible whole_word expires_in).verb
          = Verb.post ∧
      (Mastodon.updateFilter id phrase context irreversible whole_word expires_in).path
          = "/api/v1/filters/" ++ id ∧
      (Mastodon.updateFilter id phrase context irreversible whole_word expires_in).verb
          ≠ Verb.put := by
  intro id phrase context irreversible whole_word expires_in
  exact ⟨rfl, rfl, fun hct => Verb.noConfusion hct⟩

/-- C8 witness at a concrete input. -/
theorem c8_witness :
    (Mastodon.updateFilter "1" "p" [] none none none).verb = Verb.post ∧
    (Mastodon.updateFilter "1" "p" [] none none none).path = "/api/v1/filters/" ++ "1" ∧
    (Mastodon.updateFilter "1" "p" [] none none none).verb ≠ Verb.put :=
  c8_updateFilter_uses_post "1" "p" [] none none none

/-- C9: in `updateCredentials` the boolean arguments `bot` and `locked` are
sent whenever they are non-null (including `false`), while `discoverable`,
`display_name`, `note`, `avatar`, `header` and `source` are sent only when
truthy, so a falsy value (null, or the empty string for the string-typed
ones) omits the key entirely. -/
theorem c9_updateCredentials_null_vs_truthy :
    ∀ (discoverable : Option String) (bot : Option Bool)
      (display_name note avatar header : Option String) (locked : Option Bool)
      (source : Option Mastodon.Source) (fields_attributes : List (String × String)),
      ("bot" ∈ keysOf (Mastodon.updateCredentials discoverable bot display_name note
          avatar header locked source fields_attributes) ↔ bot.isSome = true) ∧
      ("locked" ∈ keysOf (Mastodon.updateCredentials discoverable bot display_name note
          avatar header locked source fields_attributes) ↔ locked.isSome = true) ∧
      ("discoverable" ∈ keysOf (Mastodon.updateCredentials discoverable bot display_name note
          avatar header locked source fields_attributes) ↔ truthyS discoverable = true) ∧
      ("display_name" ∈ keysOf (Mastodon.updateCredentials discoverable bot display_name note
          avatar header locked source fields_attributes) ↔ truthyS display_name = true) ∧
      ("note" ∈ keysOf (Mastodon.updateCredentials discoverable bot display_name note
          avatar header locked source fields_attributes) ↔ truthyS note = true) ∧
      ("avatar" ∈ keysOf (Mastodon.updateCredentials discoverable bot display_name note
          avatar header locked source fields_attributes) ↔ truthyS avatar = true) ∧
      ("header" ∈ keysOf (Mastodon.updateCredentials discoverable bot display_name note
          avatar header locked source fields_attributes) ↔ truthyS header = true) ∧
      ("source" ∈ keysOf (Mastodon.updateCredentials discoverable bot display_name note
          avatar header locked source fields_attributes) ↔ source.isSome = true) := by
  intro discoverable bot display_name note avatar header locked source fields_attributes
  simp [Mastodon.updateCredentials, mem_ite_singleton]

/-- C10: in `getBookmarks` and `getAccountFollowers` every falsy optional
argument (null, 0, or the empty string) is omitted from the request
parameters; in particular `limit = 0` sends no `limit` key at all. -/
theorem c10_paginated_falsy_omitted :
    (∀ (limit : Option Int) (max_id since_id min_id : Option String),
      ("limit" ∈ keysOf (Mastodon.getBookmarks limit max_id since_id min_id)
          ↔ truthyN limit = true) ∧
      ("max_id" ∈ keysOf (Mastodon.getBookmarks limit max_id since_id min_id)
          ↔ truthyS max_id = true) ∧
      ("since_id" ∈ keysOf (Mastodon.getBookmarks limit max_id since_id min_id)
          ↔ truthyS since_id = true) ∧
      ("min_id" ∈ keysOf (Mastodon.getBookmarks limit max_id since_id min_id)
          ↔ truthyS min_id = true)) ∧
    (∀ (id : String) (limit : Option Int) (max_id since_id : Option String),
      ("limit" ∈ keysOf (Mastodon.getAccountFollowers id limit max_id since_id)
          ↔ truthyN limit = true) ∧
      ("max_id" ∈ keysOf (Mastodon.getAccountFollowers id limit max_id since_id)
          ↔ truthyS max_id = true) ∧
      ("since_id" ∈ keysOf (Mastodon.getAccountFollowers id limit max_id since_id)
          ↔ truthyS since_id = true)) ∧
    keysOf (Mastodon.getBookmarks (some 0) none none none) = [] ∧
    keysOf (Mastodon.getAccountFollowers "1" (some 0) none none) = [] := by
  refine ⟨fun limit max_id since_id min_id => ?_, fun id limit max_id since_id => ?_, rfl, rfl⟩
  · simp [Mastodon.getBookmarks, mem_ite_singleton]
  · simp [Mastodon.getAccountFollowers, mem_ite_singleton]

/-- C4: the reconnect delay `backoff(reconnect_attempt)` is non-decreasing
in the attempt count and never exceeds the configured maximum; after a
Connection has been Open continuously past the stability window,
`reconnect_attempt` is reset, so the next Reconnecting episode schedules
the base delay again. -/
theorem c4_backoff_monotone_capped_reset :
    (∀ (cfg : StreamCfg) (a b : Nat), a ≤ b → backoff cfg a ≤ backoff cfg b) ∧
    (∀ (cfg : StreamCfg) (a : Nat), backoff cfg a ≤ cfg.maxDelay) ∧
    (∀ (cfg : StreamCfg) (c : Conn), c.status = .opened →
      cfg.stabilityWindow ≤ c.openFor + 1 →
      (stepConn cfg c .tick).1.reconnect_attempt = 0 ∧
      (cfg.baseDelay ≤ cfg.maxDelay →
        (stepConn cfg (stepConn cfg c .tick).1 .idleTimeout).1.backoffDeadline
          = cfg.baseDelay)) := by
  refine ⟨fun cfg a b hab => ?_, fun cfg a => min_le_right _ _, fun cfg c hst hw => ?_⟩
  · exact min_le_min
      (Nat.mul_le_mul (le_refl cfg.baseDelay) (Nat.pow_le_pow_right (by norm_num) hab))
      (le_refl cfg.maxDelay)
  · constructor
    · simp [stepConn, hst, hw]
    · intro hbase
      simp [stepConn, hst, hw, backoff, Nat.min_eq_left hbase]

/-- C4 witness: concrete backoff configuration, a Connection Open past the
stability window, and the reset taking effect. -/
theorem c4_witness :
    backoff ⟨1, 60, 5, true⟩ 1 ≤ backoff ⟨1, 60, 5, true⟩ 2 ∧
    (stepConn ⟨1, 60, 5, true⟩ ⟨.opened, 3, 4, 9, 0, 0, [7]⟩ .tick).1.reconnect_attempt = 0 ∧
    (stepConn ⟨1, 60, 5, true⟩
        (stepConn ⟨1, 60, 5, true⟩ ⟨.opened, 3, 4, 9, 0, 0, [7]⟩ .tick).1
        .idleTimeout).1.backoffDeadline = (1 : Nat) :=
  ⟨c4_backoff_monotone_capped_reset.1 ⟨1, 60, 5, true⟩ 1 2 (by decide),
   (c4_backoff_monotone_capped_reset.2.2 ⟨1, 60, 5, true⟩ ⟨.opened, 3, 4, 9, 0, 0, [7]⟩
      rfl (by decide)).1,
   (c4_backoff_monotone_capped_reset.2.2 ⟨1, 60, 5, true⟩ ⟨.opened, 3, 4, 9, 0, 0, [7]⟩
      rfl (by decide)).2 (by decide)⟩

/-- C5: an AuthError from any live state (initial connect, Open, or a
reconnect attempt) sends the Connection directly to the terminal Closed
state, every current subscriber receives exactly one terminal `error`
event, and from Closed no event produces any further transition or
output (in particular no reconnect attempt). -/
theorem c5_auth_error_fatal :
    ∀ (cfg : StreamCfg) (c : Conn),
      (c.status = .connecting ∨ c.status = .opened ∨ c.status = .reconnecting) →
      (stepConn cfg c .authErr).1.status = .closed ∧
      (∀ h : Nat,
        ((stepConn cfg c .authErr).2.count (.deliver h (errEvent c))) = c.subs.count h) ∧
      (∀ e : ConnEv,
        (stepConn cfg (stepConn cfg c .authErr).1 e).1.status = .closed ∧
        (stepConn cfg (stepConn cfg c .authErr).1 e).2 = []) := by
  intro cfg c hs
  rcases hs with h | h | h <;>
    exact ⟨by simp [stepConn, h], fun hh => by simp [stepConn, h, count_deliver_map],
      fun e => ⟨by simp [stepConn, h], by simp [stepConn, h]⟩⟩

/-- C5 witness: Scenario D — AuthError on reconnect attempt 2 with one
subscriber. -/
theorem c5_witness :
    (stepConn ⟨1, 60, 5, true⟩ ⟨.reconnecting, 2, 0, 9, 0, 0, [7]⟩ .authErr).1.status
        = .closed ∧
    ((stepConn ⟨1, 60, 5, true⟩ ⟨.reconnecting, 2, 0, 9, 0, 0, [7]⟩ .authErr).2.count
        (.deliver 7 (errEvent ⟨.reconnecting, 2, 0, 9, 0, 0, [7]⟩)))
        = ((⟨.reconnecting, 2, 0, 9, 0, 0, [7]⟩ : Conn).subs).count 7 :=
  ⟨(c5_auth_error_fatal ⟨1, 60, 5, true⟩ ⟨.reconnecting, 2, 0, 9, 0, 0, [7]⟩
      (Or.inr (Or.inr rfl))).1,
   (c5_auth_error_fatal ⟨1, 60, 5, true⟩ ⟨.reconnecting, 2, 0, 9, 0, 0, [7]⟩
      (Or.inr (Or.inr rfl))).2.1 7⟩

/-- C6: `last_event_cursor` never decreases under any Connection
transition or any poll, and it is the sole resume point: every
`resumeFrom` emitted by the state machine carries exactly the current
`last_event_cursor`. -/
theorem c6_cursor_monotone_sole_resume :
    (∀ (cfg : StreamCfg) (c : Conn) (e : ConnEv),
        c.last_event_cursor ≤ (stepConn cfg c e).1.last_event_cursor) ∧
    (∀ (channel cursor : Nat) (items : List Nat),
        cursor ≤ (pollOnce channel cursor items).2) ∧
    (∀ (cfg : StreamCfg) (c : Conn) (e : ConnEv) (n : Nat),
        ConnOut.resumeFrom n ∈ (stepConn cfg c e).2 → n = c.last_event_cursor) := by
  refine ⟨fun cfg c e => ?_, fun channel cursor items => le_foldl_max items cursor,
    fun cfg c e n hmem => ?_⟩
  · rcases c with ⟨st, att, opf, cur, bd, ch, subs⟩
    cases st <;> cases e <;> simp [stepConn, Nat.le_max_left]
  · rcases cfg with ⟨base, mx, wind, rs⟩
    rcases c with ⟨st, att, opf, cur, bd, ch, subs⟩
    cases rs <;> cases st <;> cases e <;> simp_all [stepConn]

/-- C6 witness: a resuming reconnect emits `resumeFrom` with the stored
cursor 9. -/
theorem c6_witness :
    (9 : Nat) = Conn.last_event_cursor ⟨.connecting, 0, 0, 9, 0, 0, []⟩ :=
  c6_cursor_monotone_sole_resume.2.2 ⟨1, 60, 5, true⟩ ⟨.connecting, 0, 0, 9, 0, 0, []⟩
    .connectOk 9 (by decide)

/-- C7: events of one Channel reach a subscriber of that Channel in
exactly normalized order, while per-channel order places no constraint on
the interleaving of different Channels: two distinct delivery schedules of
the same two-channel run both restrict to the normalized order on every
Channel. -/
theorem c7_per_channel_order :
    (∀ (subsOf : Nat → List Nat) (evs : List CEvent) (ch h : Nat),
        (subsOf ch).count h = 1 →
        deliveredTo h ch (dispatch subsOf evs) = chView ch evs) ∧
    (∃ out1 out2 : List CEvent, out1 ≠ out2 ∧
        (∀ ch, chView ch out1 = chView ch twoChannelRun) ∧
        (∀ ch, chView ch out2 = chView ch twoChannelRun)) := by
  constructor
  · intro subsOf evs ch h hc
    induction evs with
    | nil => simp [dispatch, deliveredTo, chView]
    | cons e t ih =>
      rw [dispatch_cons, deliveredTo_append, deliveredTo_block, ih]
      cases hch : (e.channel == ch)
      · simp [chView, List.filter_cons, hch]
      · have hcc : e.channel = ch := by simpa using hch
        simp [chView, List.filter_cons, hch, hcc, hc]
  · refine ⟨twoChannelRun, [⟨1, .update, 2⟩, ⟨0, .update, 1⟩], by decide,
      fun ch => rfl, fun ch => ?_⟩
    match ch with
    | 0 => rfl
    | 1 => rfl
    | (n + 2) => rfl

/-- C7 witness: one subscriber on channel 0 of the two-channel run
receives exactly channel 0's normalized sequence. -/
theorem c7_witness :
    deliveredTo 7 0 (dispatch (fun _ => [7]) twoChannelRun) = chView 0 twoChannelRun :=
  c7_per_channel_order.1 (fun _ => [7]) twoChannelRun 0 7 (by decide)

end Megalodon
